import Mathlib

/-!
Verification development for the two-stage product search pipeline
(`src/product/search.py`): BigQuery vector-search recall (`get_candidates`),
Gemini rerank with a multi-stage JSON recovery parser (`rerank_and_filter`),
and the `__main__` driver block.  The Python code is shallowly embedded as
pure Lean functions; the two external collaborators (the BigQuery client and
the generative model) are passed in as function-valued oracles, and each call
the script makes to them is recorded in an explicit call log.
-/

namespace ProductSearch

/- Named characters, to keep source text readable where escapes would be
needed: backtick, single quote, double quote, braces, backslash. -/

def bstick : Char := Char.ofNat 96

def squote : Char := Char.ofNat 39

def dquote : Char := Char.ofNat 34

def lbrace : Char := Char.ofNat 123

def rbrace : Char := Char.ofNat 125

def bslash : Char := Char.ofNat 92

/-- A candidate product record: the three columns selected by the
vector-search SQL (`base.product_name, base.summary, base.code`), in the
order `to_dict(orient="records")` preserves them. -/
structure Candidate where
  product_name : String
  summary : String
  code : String

/- Configuration constants from the top of search.py. -/

def PROJECT_ID : String := "phonic-raceway-481118-v0"

def LOCATION : String := "us-central1"

def DATASET_ID : String := "Product_Staging"

def TABLE_ID : String := "product_embeddings_final"

def MODEL_PATH : String := "`" ++ PROJECT_ID ++ "." ++ DATASET_ID ++ ".my_text_embedding_model-004`"

/- The f-string `query_sql` of get_candidates, split around the `{top_k}`
interpolation.  `\x27` is a single quote. -/

def sqlBefore : String :=
  "\n    SELECT base.product_name, base.summary, base.code\n    FROM VECTOR_SEARCH(\n      TABLE `"
  ++ PROJECT_ID ++ "." ++ DATASET_ID ++ "." ++ TABLE_ID
  ++ "`,\n      \x27text_embedding\x27,\n      (\n        SELECT ml_generate_embedding_result AS text_embedding \n        FROM ML.GENERATE_EMBEDDING(MODEL "
  ++ MODEL_PATH
  ++ ", (SELECT @text AS content), STRUCT(TRUE AS flatten_json_output))\n      ),\n      top_k => "

def sqlAfter : String := "\n    )\n    "

def query_sql (top_k : Int) : String := sqlBefore ++ toString top_k ++ sqlAfter

/-- Function `get_candidates(user_query, top_k=25)`: builds the SQL with `top_k`
interpolated and issues exactly one BigQuery job (recorded in the call log as
the pair of SQL text and the `@text` query parameter).  The Python source
performs no validation of `top_k` before the call. -/
def get_candidates (index : String → String → List Candidate)
    (user_query : String) (top_k : Int) : List (String × String) × List Candidate :=
  let sql := query_sql top_k
  ([(sql, user_query)], index sql user_query)

/- ---------- Model of the Python `re` patterns used by the parser ---------- -/

/-- Python regex `\s` on `str` (Unicode whitespace; the ASCII part plus the
Unicode space separators Python's `re` matches). -/
def reWsChar (c : Char) : Bool :=
  let n := c.toNat
  (0x9 ≤ n && n ≤ 0xd) || n = 0x20 || (0x1c ≤ n && n ≤ 0x1f) || n = 0x85 || n = 0xa0 ||
    n = 0x1680 || (0x2000 ≤ n && n ≤ 0x200a) || n = 0x2028 || n = 0x2029 || n = 0x202f ||
    n = 0x205f || n = 0x3000

def dropWs (l : List Char) : List Char := l.dropWhile reWsChar

/-- The fence marker, three backticks. -/
def triple : List Char := [bstick, bstick, bstick]

def jsonTag : List Char := ['j', 's', 'o', 'n']

/-- Tail condition of the fenced pattern: after the candidate closing `}`,
`\s*` (greedy, deterministic since no whitespace char is a backtick) must be
followed by the literal closing fence. -/
def checkClose (after : List Char) : Bool := triple.isPrefixOf (dropWs after)

/-- Greedy `.*\}\s*` + closing fence search for
`re.search(r'```(json)?\s*(\{.*\})\s*```', ..., re.DOTALL)`: walk the region
after the opening `{` from the right (first argument is the region reversed),
so the first hit is the last `}` whose tail matches — exactly the greedy `.*`
semantics.  Returns the characters of group 2 after the `{`, i.e. everything
up to and including the matched `}`. -/
def closeRev : List Char → List Char → Option (List Char)
  | [], _ => none
  | c :: r, after =>
    if c == rbrace && checkClose after then some (r.reverse ++ [c])
    else closeRev r (c :: after)

/-- Continuation of the fenced pattern once the optional `json` tag and the
`\s*` run have been consumed: `\{`, then the greedy close search. -/
def fenceAfterWs (l2 : List Char) : Option (List Char) :=
  match l2 with
  | c :: rest =>
    if c == lbrace then
      match closeRev rest.reverse [] with
      | some m => some (lbrace :: m)
      | none => none
    else none
  | [] => none

/-- Attempt the fenced pattern right after an opening ```` ``` ````:
`(json)?` (deterministic: consuming `json` iff present, since otherwise the
next char would have to be `{`), then `\s*` (deterministic: whitespace is
never `{`), then `\{`, then the greedy close search. -/
def fenceTail (l : List Char) : Option (List Char) :=
  fenceAfterWs (dropWs (if jsonTag.isPrefixOf l then l.drop 4 else l))

/-- Model of `re.search` of the fenced pattern: try every start position left to
right (the pattern can only start at a ```` ``` ```` occurrence), full
backtracking at each start.  Returns group 2 of the leftmost match. -/
def fencedSearch : List Char → Option (List Char)
  | [] => none
  | c :: rest =>
    if triple.isPrefixOf (c :: rest) then
      match fenceTail ((c :: rest).drop 3) with
      | some s => some s
      | none => fencedSearch rest
    else fencedSearch rest

/-- Model of `re.search(r'\{.*\}', text, re.DOTALL)`: group 0 spans from the first
`{` to the last `}` strictly after it; no match when no such pair exists
(leftmost start plus greedy `.*`). -/
def braceSearch (l : List Char) : Option (List Char) :=
  match l.dropWhile (fun c => !(c == lbrace)) with
  | [] => none
  | _ :: t =>
    match t.reverse.dropWhile (fun c => !(c == rbrace)) with
    | [] => none
    | rt => some (lbrace :: rt.reverse)

/-- One `splitQuote` step of `re.sub(r"'(.*?)'", r'"\1"', s)`: the lazy
`(.*?)` takes the shortest span, i.e. everything up to the next single
quote. -/
def splitQuote (l : List Char) : Option (List Char × List Char) :=
  if l.any (fun c => c == squote) then
    some (l.takeWhile (fun c => !(c == squote)), (l.dropWhile (fun c => !(c == squote))).tail)
  else none

/-- Global substitution `re.sub(r"'(.*?)'", r'"\1"', s)`: scan left to
right; at each single quote pair the shortest delimited span is rewritten to
a double-quoted span and scanning resumes after it; an unpaired quote is
copied through.  Fuel-indexed (each step consumes at least one character). -/
def fixQuotesAux : Nat → List Char → List Char
  | 0, l => l
  | _ + 1, [] => []
  | fuel + 1, c :: rest =>
    if c == squote then
      match splitQuote rest with
      | some (interior, r2) => dquote :: (interior ++ dquote :: fixQuotesAux fuel r2)
      | none => c :: fixQuotesAux fuel rest
    else c :: fixQuotesAux fuel rest

def fix_quotes (l : List Char) : List Char := fixQuotesAux (l.length + 1) l

/- ---------- Model of Python `json.loads` (strict decoder) ---------- -/

/-- Decoded JSON values.  Numbers keep their source lexeme (the decoder is
used only for syntactic validity and string/structure content here; no
float arithmetic is modelled). -/
inductive JValue where
  | jnull
  | jtrue
  | jfalse
  | jnum (lexeme : String)
  | jstr (s : String)
  | jarr (items : List JValue)
  | jobj (entries : List (String × JValue))

/-- JSON's own whitespace set (space, tab, newline, carriage return) —
narrower than regex `\s`. -/
def jsonWsChar (c : Char) : Bool := c == ' ' || c == '\t' || c == '\n' || c == '\r'

def skipJWs (l : List Char) : List Char := l.dropWhile jsonWsChar

def hexVal (c : Char) : Option Nat :=
  if '0' ≤ c && c ≤ '9' then some (c.toNat - 48)
  else if 'a' ≤ c && c ≤ 'f' then some (c.toNat - 87)
  else if 'A' ≤ c && c ≤ 'F' then some (c.toNat - 70)
  else none

def parseHex4 : List Char → Option (Nat × List Char)
  | a :: b :: c :: d :: rest =>
    match hexVal a, hexVal b, hexVal c, hexVal d with
    | some x, some y, some z, some w => some (((x * 16 + y) * 16 + z) * 16 + w, rest)
    | _, _, _, _ => none
  | _ => none

/-- String body scanner (after the opening double quote): standard JSON
escapes, `\uXXXX` with surrogate-pair combination, raw control characters
rejected (Python's default `strict=True`).  A lone surrogate — which Python
would keep as a surrogate code unit — is approximated by `Char.ofNat`
(such inputs occur in none of the properties checked here). -/
def parseJStrChars : Nat → List Char → Option (List Char × List Char)
  | 0, _ => none
  | _ + 1, [] => none
  | fuel + 1, c :: rest =>
    if c == dquote then some ([], rest)
    else if c == bslash then
      match rest with
      | [] => none
      | e :: r2 =>
        if e == dquote || e == bslash || e == '/' then
          (parseJStrChars fuel r2).map (fun p => (e :: p.1, p.2))
        else if e == 'b' then (parseJStrChars fuel r2).map (fun p => (Char.ofNat 8 :: p.1, p.2))
        else if e == 'f' then (parseJStrChars fuel r2).map (fun p => (Char.ofNat 12 :: p.1, p.2))
        else if e == 'n' then (parseJStrChars fuel r2).map (fun p => ('\n' :: p.1, p.2))
        else if e == 'r' then (parseJStrChars fuel r2).map (fun p => ('\r' :: p.1, p.2))
        else if e == 't' then (parseJStrChars fuel r2).map (fun p => ('\t' :: p.1, p.2))
        else if e == 'u' then
          match parseHex4 r2 with
          | none => none
          | some (n, r3) =>
            if 0xd800 ≤ n && n ≤ 0xdbff then
              match r3 with
              | b1 :: b2 :: r4 =>
                if b1 == bslash && b2 == 'u' then
                  match parseHex4 r4 with
                  | some (m, r5) =>
                    if 0xdc00 ≤ m && m ≤ 0xdfff then
                      (parseJStrChars fuel r5).map
                        (fun p => (Char.ofNat (0x10000 + (n - 0xd800) * 0x400 + (m - 0xdc00)) :: p.1, p.2))
                    else (parseJStrChars fuel r3).map (fun p => (Char.ofNat n :: p.1, p.2))
                  | none => (parseJStrChars fuel r3).map (fun p => (Char.ofNat n :: p.1, p.2))
                else (parseJStrChars fuel r3).map (fun p => (Char.ofNat n :: p.1, p.2))
              | _ => (parseJStrChars fuel r3).map (fun p => (Char.ofNat n :: p.1, p.2))
            else (parseJStrChars fuel r3).map (fun p => (Char.ofNat n :: p.1, p.2))
        else none
    else if c.toNat < 0x20 then none
    else (parseJStrChars fuel rest).map (fun p => (c :: p.1, p.2))

/-- Number lexeme, per Python's `NUMBER_RE`:
`(-?(?:0|[1-9]\d*))(\.\d+)?([eE][-+]?\d+)?`. -/
def parseNumLex (l : List Char) : Option (List Char × List Char) :=
  let (sign, l1) : List Char × List Char :=
    match l with
    | c :: r => if c == '-' then ([c], r) else ([], l)
    | [] => ([], [])
  match l1 with
  | [] => none
  | c :: r =>
    if c == '0' || ('1' ≤ c && c ≤ '9') then
      let (ds, r2) : List Char × List Char :=
        if c == '0' then ([], r)
        else (r.takeWhile Char.isDigit, r.dropWhile Char.isDigit)
      let intPart := sign ++ c :: ds
      let (frac, r3) : List Char × List Char :=
        match r2 with
        | d :: r2a =>
          if d == '.' && (r2a.headD ' ').isDigit then
            (d :: r2a.takeWhile Char.isDigit, r2a.dropWhile Char.isDigit)
          else ([], r2)
        | [] => ([], r2)
      let (expPart, r4) : List Char × List Char :=
        match r3 with
        | e :: r3a =>
          if e == 'e' || e == 'E' then
            let (sgn, r3b) : List Char × List Char :=
              match r3a with
              | s :: r3c => if s == '+' || s == '-' then ([s], r3c) else ([], r3a)
              | [] => ([], r3a)
            if (r3b.headD ' ').isDigit then
              (e :: (sgn ++ r3b.takeWhile Char.isDigit), r3b.dropWhile Char.isDigit)
            else ([], r3)
          else ([], r3)
        | [] => ([], r3)
      some (intPart ++ frac ++ expPart, r4)
    else none

/-- Duplicate object keys: Python dicts keep the first key's position with
the last value. -/
def insertUpd (es : List (String × JValue)) (k : String) (v : JValue) : List (String × JValue) :=
  if es.any (fun e => e.1 == k) then es.map (fun e => if e.1 == k then (k, v) else e)
  else es ++ [(k, v)]

mutual

/-- Value scanner of `json.loads`.  Fuel-indexed; every recursive call strictly
decreases the fuel, and the top-level wrapper supplies enough fuel for any
input of the given length. -/
def parseVal : Nat → List Char → Option (JValue × List Char)
  | 0, _ => none
  | fuel + 1, l =>
    match l with
    | [] => none
    | c :: rest =>
      if c == lbrace then parseObj fuel (skipJWs rest)
      else if c == '[' then parseArr fuel (skipJWs rest)
      else if c == dquote then
        (parseJStrChars fuel rest).map (fun p => (JValue.jstr (String.mk p.1), p.2))
      else if ['n', 'u', 'l', 'l'].isPrefixOf l then some (JValue.jnull, l.drop 4)
      else if ['t', 'r', 'u', 'e'].isPrefixOf l then some (JValue.jtrue, l.drop 4)
      else if ['f', 'a', 'l', 's', 'e'].isPrefixOf l then some (JValue.jfalse, l.drop 5)
      else if ['N', 'a', 'N'].isPrefixOf l then some (JValue.jnum "NaN", l.drop 3)
      else if ['I', 'n', 'f', 'i', 'n', 'i', 't', 'y'].isPrefixOf l then
        some (JValue.jnum "Infinity", l.drop 8)
      else if ['-', 'I', 'n', 'f', 'i', 'n', 'i', 't', 'y'].isPrefixOf l then
        some (JValue.jnum "-Infinity", l.drop 9)
      else
        match parseNumLex l with
        | some (lex, r2) => some (JValue.jnum (String.mk lex), r2)
        | none => none

/-- Object body after `{` with whitespace skipped. -/
def parseObj : Nat → List Char → Option (JValue × List Char)
  | 0, _ => none
  | fuel + 1, l =>
    match l with
    | [] => none
    | c :: rest =>
      if c == rbrace then some (JValue.jobj [], rest)
      else if c == dquote then
        match parseJStrChars fuel rest with
        | some (k, r2) =>
          match skipJWs r2 with
          | c2 :: r3 =>
            if c2 == ':' then
              match parseVal fuel (skipJWs r3) with
              | some (v, r4) => parseObjRest fuel [(String.mk k, v)] (skipJWs r4)
              | none => none
            else none
          | [] => none
        | none => none
      else none

def parseObjRest : Nat → List (String × JValue) → List Char → Option (JValue × List Char)
  | 0, _, _ => none
  | fuel + 1, acc, l =>
    match l with
    | [] => none
    | c :: rest =>
      if c == rbrace then some (JValue.jobj acc, rest)
      else if c == ',' then
        match skipJWs rest with
        | c2 :: r2 =>
          if c2 == dquote then
            match parseJStrChars fuel r2 with
            | some (k, r3) =>
              match skipJWs r3 with
              | c3 :: r4 =>
                if c3 == ':' then
                  match parseVal fuel (skipJWs r4) with
                  | some (v, r5) => parseObjRest fuel (insertUpd acc (String.mk k) v) (skipJWs r5)
                  | none => none
                else none
              | [] => none
            | none => none
          else none
        | [] => none
      else none

/-- Array body after `[` with whitespace skipped. -/
def parseArr : Nat → List Char → Option (JValue × List Char)
  | 0, _ => none
  | fuel + 1, l =>
    match l with
    | [] => none
    | c :: _ =>
      if c == ']' then some (JValue.jarr [], l.tail)
      else
        match parseVal fuel l with
        | some (v, r2) => parseArrRest fuel [v] (skipJWs r2)
        | none => none

def parseArrRest : Nat → List JValue → List Char → Option (JValue × List Char)
  | 0, _, _ => none
  | fuel + 1, acc, l =>
    match l with
    | [] => none
    | c :: rest =>
      if c == ']' then some (JValue.jarr acc.reverse, rest)
      else if c == ',' then
        match parseVal fuel (skipJWs rest) with
        | some (v, r2) => parseArrRest fuel (v :: acc) (skipJWs r2)
        | none => none
      else none

end

/-- Model of `json.loads`: decode one value, then require only whitespace to remain
(Python raises on trailing data; here that is the `none` result). -/
def json_loads (l : List Char) : Option JValue :=
  match parseVal (2 * l.length + 2) (skipJWs l) with
  | some (v, rest) => if (skipJWs rest).isEmpty then some v else none
  | none => none

/- ---------- The response parser of rerank_and_filter (lines 66-94) ---------- -/

/-- The `json_str` variable: fenced-block extraction first; if that regex
found no match, brace-span extraction over the same entire response text. -/
def json_str_of (raw : String) : Option (List Char) :=
  match fencedSearch raw.data with
  | some s => some s
  | none => braceSearch raw.data

/-- Lines 66-94 of search.py: extraction, `if not json_str: return None`,
strict `json.loads`, and on `JSONDecodeError` the single quote-repair retry;
a second decode error returns `None`.  (The printed warnings are I/O only
and carry no data into the return value.) -/
def parse_response (raw : String) : Option JValue :=
  match json_str_of raw with
  | none => none
  | some s =>
    if s.isEmpty then none
    else
      match json_loads s with
      | some v => some v
      | none =>
        match json_loads (fix_quotes s) with
        | some v => some v
        | none => none

/- ---------- Prompt construction (lines 45-62) ---------- -/

/-- String escaping of `json.dumps` with `ensure_ascii=True`: printable ASCII
kept, the named escapes for the usual control characters, `\uXXXX` for the
rest (surrogate pairs for astral code points). -/
def hexDigit (n : Nat) : Char :=
  if n < 10 then Char.ofNat (48 + n) else Char.ofNat (87 + n)

def uEscape (n : Nat) : List Char :=
  [bslash, 'u', hexDigit (n / 4096 % 16), hexDigit (n / 256 % 16), hexDigit (n / 16 % 16),
    hexDigit (n % 16)]

def dumpEscapeChar (c : Char) : List Char :=
  if c == dquote then [bslash, dquote]
  else if c == bslash then [bslash, bslash]
  else if c == '\n' then [bslash, 'n']
  else if c == '\t' then [bslash, 't']
  else if c == '\r' then [bslash, 'r']
  else if c.toNat == 8 then [bslash, 'b']
  else if c.toNat == 12 then [bslash, 'f']
  else if 0x20 ≤ c.toNat && c.toNat ≤ 0x7e then [c]
  else if c.toNat < 0x10000 then uEscape c.toNat
  else
    uEscape (0xd800 + (c.toNat - 0x10000) / 0x400) ++ uEscape (0xdc00 + (c.toNat - 0x10000) % 0x400)

def dumpsStr (s : String) : String :=
  String.mk (dquote :: (s.data.flatMap dumpEscapeChar) ++ [dquote])

/-- One record of `json.dumps(candidates, indent=2)`: keys in the column
order of the SELECT (`product_name`, `summary`, `code`), two-space
indentation inside the top-level list. -/
def dumpsItem (c : Candidate) : String :=
  "  \x7b\n    \"product_name\": " ++ dumpsStr c.product_name ++ ",\n    \"summary\": "
    ++ dumpsStr c.summary ++ ",\n    \"code\": " ++ dumpsStr c.code ++ "\n  \x7d"

/-- Model of `json.dumps(candidates, indent=2)` for the list of candidate records. -/
def dumpsCandidates (cs : List Candidate) : String :=
  match cs with
  | [] => "[]"
  | _ => "[\n" ++ String.intercalate ",\n" (cs.map dumpsItem) ++ "\n]"

/- The `system_prompt` f-string, split at its two interpolations
(`{user_query}` and `{json.dumps(candidates, indent=2)}`).  `\x27` is a
single quote, `\x7b`/`\x7d` are literal braces (written `{{`/`}}` in the
f-string). -/

def promptPartA : String :=
  "\n    You are an expert shopping assistant. I have a list of products retrieved from a search.\n    \n    User Request: \""

def promptPartB : String := "\"\n    \n    Candidates:\n    "

def promptPartC : String :=
  "\n    \n    Instructions:\n    1. Analyze the user\x27s request. If it contains generic wellness terms (e.g., \"healthy\", \"good\", \"nutritional\"), you MUST base your assessment on the nutritional information and ingredients found in the \x27summary\x27 field for each product and nova-group. Do not rely solely on the product\x27s name.\n    2. Filter the candidates to keep ONLY those that truly match the user\x27s specific constraints (negations, protein counts, ingredient exclusions).\n    3. Rank the filtered candidates by relevance to the user\x27s request.\n    4. Return a JSON list of the top 5 products, including their code and name.\n    5. Provide a 1-sentence explanation for why each was chosen, referencing the nutritional data if you used it.\n    \n    Output Format:\n    \x7b\"results\": [\x7b\"code\": \"CODE\", \"name\": \"PRODUCT_NAME\", \"explanation\": \"Reasoning...\"\x7d]\x7d\n    "

/-- The rendered `system_prompt` (lines 45-62): a pure function of the query
and the candidate list, with the candidate dump embedded verbatim. -/
def system_prompt (user_query : String) (candidates : List Candidate) : String :=
  promptPartA ++ user_query ++ promptPartB ++ dumpsCandidates candidates ++ promptPartC

/-- Function `rerank_and_filter(user_query, candidates)`: render the prompt, make the
single unconditional `generate_content` call (returned first as the call
log), parse the reply. -/
def rerank_and_filter (generate : String → String) (user_query : String)
    (candidates : List Candidate) : List String × Option JValue :=
  let prompt := system_prompt user_query candidates
  let raw := generate prompt
  ([prompt], parse_response raw)

/- ---------- The __main__ block (lines 96-109) ---------- -/

mutual

/-- Structural equality of JSON values (Python `==` as used by the `in`
operator on lists; disjoint from numeric coercion corner cases, which the
lexeme representation cannot distinguish anyway). -/
def jeq : JValue → JValue → Bool
  | JValue.jnull, JValue.jnull => true
  | JValue.jtrue, JValue.jtrue => true
  | JValue.jfalse, JValue.jfalse => true
  | JValue.jnum a, JValue.jnum b => a == b
  | JValue.jstr a, JValue.jstr b => a == b
  | JValue.jarr a, JValue.jarr b => jeqList a b
  | JValue.jobj a, JValue.jobj b => jeqEntries a b
  | _, _ => false

def jeqList : List JValue → List JValue → Bool
  | [], [] => true
  | a :: as', b :: bs' => jeq a b && jeqList as' bs'
  | _, _ => false

def jeqEntries : List (String × JValue) → List (String × JValue) → Bool
  | [], [] => true
  | (ka, va) :: as', (kb, vb) :: bs' => ka == kb && jeq va vb && jeqEntries as' bs'
  | _, _ => false

end

/-- Python truthiness of a decoded JSON value (`None`/`False`/zero/empty
containers and strings are falsy). -/
def numIsZero (lex : String) : Bool :=
  let mantissa := (lex.data.filter (fun c => !(c == '-'))).takeWhile
    (fun c => !(c == 'e' || c == 'E'))
  !mantissa.isEmpty && mantissa.all (fun c => c == '0' || c == '.')

def pyTruthy : JValue → Bool
  | JValue.jnull => false
  | JValue.jtrue => true
  | JValue.jfalse => false
  | JValue.jnum lex => !(numIsZero lex)
  | JValue.jstr s => !s.isEmpty
  | JValue.jarr items => !items.isEmpty
  | JValue.jobj es => !es.isEmpty

/-- Substring test on character lists (Python `in` on strings). -/
def subListOf (needle : List Char) : List Char → Bool
  | [] => needle.isEmpty
  | c :: t => needle.isPrefixOf (c :: t) || subListOf needle t

/-- Membership test `'results' in final_results`: key test on a dict, membership on a list,
substring test on a string; `none` models the `TypeError` Python raises on
the remaining types. -/
def pyInResults : JValue → Option Bool
  | JValue.jobj es => some (es.any (fun e => e.1 == "results"))
  | JValue.jarr items => some (items.any (fun it => jeq it (JValue.jstr "results")))
  | JValue.jstr s => some (subListOf "results".data s.data)
  | _ => none

/-- The guard `final_results and 'results' in final_results` (short-circuit:
a falsy left operand skips the membership test). -/
def mainCond (final : Option JValue) : Option Bool :=
  match final with
  | none => some false
  | some v => if pyTruthy v then pyInResults v else some false

/-- Python dict subscript `x[k]` (on the duplicate-free entry lists
`json_loads` produces); `none` models `KeyError`/`TypeError`. -/
def getItem (v : JValue) (k : String) : Option JValue :=
  match v with
  | JValue.jobj es => (es.find? (fun e => e.1 == k)).map (fun e => e.2)
  | _ => none

mutual

/-- Python `repr` of a decoded value (approximated for strings by plain
single quoting; only reachable for nested containers in printed fields). -/
def pyRepr : JValue → String
  | JValue.jstr s => String.mk (squote :: s.data ++ [squote])
  | JValue.jnum lex => lex
  | JValue.jtrue => "True"
  | JValue.jfalse => "False"
  | JValue.jnull => "None"
  | JValue.jarr items => "[" ++ pyReprList items ++ "]"
  | JValue.jobj es => "\x7b" ++ pyReprEntries es ++ "\x7d"

def pyReprList : List JValue → String
  | [] => ""
  | [x] => pyRepr x
  | x :: xs => pyRepr x ++ ", " ++ pyReprList xs

def pyReprEntries : List (String × JValue) → String
  | [] => ""
  | [(k, v)] => String.mk (squote :: k.data ++ [squote]) ++ ": " ++ pyRepr v
  | (k, v) :: xs =>
    String.mk (squote :: k.data ++ [squote]) ++ ": " ++ pyRepr v ++ ", " ++ pyReprEntries xs

end

/-- Conversion `str()` as the f-string applies it.  For the string/number/bool/None
leaves this is exact; container reprs (single-quoted, comma separated) cover
the off-path cases where an item field decodes to a nested value. -/
def pyStr : JValue → String
  | JValue.jstr s => s
  | JValue.jnum lex => lex
  | JValue.jtrue => "True"
  | JValue.jfalse => "False"
  | JValue.jnull => "None"
  | JValue.jarr items => "[" ++ pyReprList items ++ "]"
  | JValue.jobj es => "\x7b" ++ pyReprEntries es ++ "\x7d"

/-- One iteration of the print loop: the f-string
`f"Code: {item['code']} | Name: {item['name']} | Reason: {item['explanation']}"`;
`none` models the uncaught `KeyError`/`TypeError` when an item is not a dict
with all three keys. -/
def printItem (it : JValue) : Option String :=
  match getItem it "code", getItem it "name", getItem it "explanation" with
  | some c, some n, some e =>
    some ("Code: " ++ pyStr c ++ " | Name: " ++ pyStr n ++ " | Reason: " ++ pyStr e)
  | _, _, _ => none

def printLoop : List JValue → Option (List String)
  | [] => some []
  | it :: rest =>
    match printItem it with
    | some line =>
      match printLoop rest with
      | some lines => some (line :: lines)
      | none => none
    | none => none

/-- Loop `for item in final_results['results']`: iterating a list visits its
elements, a string its characters, a dict its keys; other values raise
`TypeError` (`none`). -/
def pyForPrint : JValue → Option (List String)
  | JValue.jarr items => printLoop items
  | JValue.jstr s => printLoop (s.data.map (fun ch => JValue.jstr (String.mk [ch])))
  | JValue.jobj es => printLoop (es.map (fun e => JValue.jstr e.1))
  | _ => none

/-- Lines 107-109: the guard, then the subscript and print loop.  `some
lines` is normal termination printing exactly `lines`; `none` is an uncaught
exception.  A falsy or `results`-free value prints nothing and the script
ends normally with status 0 — there is no error branch. -/
def main_print (final : Option JValue) : Option (List String) :=
  match mainCond final with
  | none => none
  | some false => some []
  | some true =>
    match final with
    | some v =>
      match getItem v "results" with
      | some rv => pyForPrint rv
      | none => none
    | none => some []

/-- Observable trace of one run of the `__main__` block, with the two
collaborators as injected oracles: the BigQuery jobs issued, the candidate
rows they returned, the prompts sent to the model, the parsed value, and the
printed output. -/
structure RunResult where
  bqLog : List (String × String)
  candidates : List Candidate
  genLog : List String
  finalResults : Option JValue
  output : Option (List String)

/-- Lines 96-109 as a function of the user input (instantiated by the script
with `"Healthy snacks"`): `get_candidates` with the default `top_k=25`, then
`rerank_and_filter`, then the conditional print loop. -/
def run_pipeline (index : String → String → List Candidate) (generate : String → String)
    (user_input : String) : RunResult :=
  let g := get_candidates index user_input 25
  let r := rerank_and_filter generate user_input g.2
  { bqLog := g.1, candidates := g.2, genLog := r.1, finalResults := r.2,
    output := main_print r.2 }

/- ---------- Accessors used only to state properties ---------- -/

/-- Is there a top-level `results` key? -/
def hasResultsKey : JValue → Bool
  | JValue.jobj es => es.any (fun e => e.1 == "results")
  | _ => false

/-- The `results` list when it is a list of strings. -/
def resultsStrings (v : JValue) : Option (List String) :=
  match getItem v "results" with
  | some (JValue.jarr items) =>
    items.mapM (fun it =>
      match it with
      | JValue.jstr s => some s
      | _ => none)
  | _ => none

/-- The `code` fields of the decoded `results` items. -/
def resultCodes (final : Option JValue) : Option (List String) :=
  match final with
  | some v =>
    match getItem v "results" with
    | some (JValue.jarr items) =>
      items.mapM (fun it =>
        match getItem it "code" with
        | some (JValue.jstr c) => some c
        | _ => none)
    | _ => none
  | none => none

/- ---------- Concrete test vectors used in the statements below ---------- -/

/-- A single-candidate index reply. -/
def candA : Candidate := ⟨"NameA", "sumA", "A"⟩

/-- Single-quoted model reply (the §8 parser-recovery example; `\x27` is a
single quote, `\x7b`/`\x7d` are braces). -/
def rawC7 : String :=
  "\x7b\x27results\x27: [\x7b\x27code\x27: \x27A\x27, \x27name\x27: \x27X\x27, \x27explanation\x27: \x27y\x27\x7d]\x7d"

/-- The quote-repair rewrite of `rawC7`. -/
def fixedC7 : String :=
  "\x7b\"results\": [\x7b\"code\": \"A\", \"name\": \"X\", \"explanation\": \"y\"\x7d]\x7d"

/-- The decoded value of `fixedC7`. -/
def vC7 : JValue :=
  JValue.jobj [("results", JValue.jarr [JValue.jobj
    [("code", JValue.jstr "A"), ("name", JValue.jstr "X"), ("explanation", JValue.jstr "y")]])]

/-- A well-formed reply whose single item has code `Z`. -/
def rawZ : String :=
  "\x7b\"results\": [\x7b\"code\": \"Z\", \"name\": \"X\", \"explanation\": \"y\"\x7d]\x7d"

/-- A well-formed reply with six items. -/
def raw6 : String :=
  "\x7b\"results\": [\x7b\"code\": \"C1\", \"name\": \"N\", \"explanation\": \"e\"\x7d, \x7b\"code\": \"C2\", \"name\": \"N\", \"explanation\": \"e\"\x7d, \x7b\"code\": \"C3\", \"name\": \"N\", \"explanation\": \"e\"\x7d, \x7b\"code\": \"C4\", \"name\": \"N\", \"explanation\": \"e\"\x7d, \x7b\"code\": \"C5\", \"name\": \"N\", \"explanation\": \"e\"\x7d, \x7b\"code\": \"C6\", \"name\": \"N\", \"explanation\": \"e\"\x7d]\x7d"

/-- A well-formed decoded item (dict with the three printed keys). -/
def itemW : JValue :=
  JValue.jobj [("code", JValue.jstr "A"), ("name", JValue.jstr "X"), ("explanation", JValue.jstr "y")]

/-- A reply whose `results` key is single-quoted and whose first (strict,
double-quoted) string element contains two apostrophes around `, `. -/
def rawC10 : String := "\x7b\x27results\x27: [\"X\x27, \x27Y\", \"Z\"]\x7d"

/-- What the quote-repair stage makes of `rawC10`: the apostrophes inside
the double-quoted element are consumed as delimiters. -/
def fixedC10 : String := "\x7b\"results\": [\"X\", \"Y\", \"Z\"]\x7d"

/-- A content-faithful repair of `rawC10` that rewrites only the
single-quoted key. -/
def faithfulC10 : String := "\x7b\"results\": [\"X\x27, \x27Y\", \"Z\"]\x7d"

/-- The decoded value of `fixedC10` (three string elements). -/
def vC10bad : JValue :=
  JValue.jobj [("results", JValue.jarr [JValue.jstr "X", JValue.jstr "Y", JValue.jstr "Z"])]

/-- The decoded value of `faithfulC10` (two string elements, apostrophes
preserved). -/
def vC10good : JValue :=
  JValue.jobj [("results", JValue.jarr [JValue.jstr "X\x27, \x27Y", JValue.jstr "Z"])]

/-- A reply with an opened but unclosed fence around valid JSON. -/
def rawUnclosed : String := "```json\n\x7b\"results\": []\x7d"

/-- A reply whose fenced block contains no braces, while the surrounding
prose does. -/
def rawNoBrace : String := "pre \x7b\"a\": []\x7d ```json\nhello\n``` post"

/- ---------- Lemmas about the extraction stages ---------- -/

theorem dropWs_eq (l : List Char) : dropWs l = l.dropWhile reWsChar := rfl

/-- A successful greedy close search decomposes the scanned region as the
matched span (ending in `}`), a whitespace run, the closing fence, and an
arbitrary tail. -/
theorem closeRev_spec (rl a0 m : List Char) (h : closeRev rl a0 = some m) :
    ∃ mc ws t, m = mc ++ [rbrace] ∧ rl.reverse ++ a0 = m ++ (ws ++ (triple ++ t)) ∧
      ∀ c ∈ ws, reWsChar c := by
  induction rl generalizing a0 with
  | nil => simp [closeRev] at h
  | cons c r ih =>
    simp only [closeRev] at h
    by_cases hc : (c == rbrace && checkClose a0) = true
    · rw [if_pos hc] at h
      obtain ⟨h1, h2⟩ := Bool.and_eq_true_iff.mp hc
      have hcr : c = rbrace := eq_of_beq h1
      have hm : r.reverse ++ [c] = m := Option.some.inj h
      obtain ⟨t, ht⟩ : triple <+: dropWs a0 := List.isPrefixOf_iff_prefix.mp h2
      refine ⟨r.reverse, a0.takeWhile reWsChar, t, ?_, ?_, ?_⟩
      · rw [← hm, hcr]
      · rw [List.reverse_cons, hm]
        have ha : a0 = a0.takeWhile reWsChar ++ (triple ++ t) := by
          conv_lhs => rw [← List.takeWhile_append_dropWhile reWsChar a0]
          rw [← dropWs_eq, ← ht]
        rw [← hm, List.append_assoc]
        conv_lhs => rw [ha]
        rw [List.append_assoc]
      · intro x hx; exact List.mem_takeWhile_imp hx
    · rw [if_neg hc] at h
      obtain ⟨mc, ws, t, e1, e2, e3⟩ := ih (c :: a0) h
      refine ⟨mc, ws, t, e1, ?_, e3⟩
      rw [List.reverse_cons, List.append_assoc, List.singleton_append]
      exact e2

/-- A successful `\{.*\}\s*` + closing-fence step decomposes its input as
the span, whitespace, the closing fence and a tail. -/
theorem fenceAfterWs_spec (l2 s : List Char) (h : fenceAfterWs l2 = some s) :
    ∃ ws t core, l2 = s ++ (ws ++ (triple ++ t)) ∧ (∀ c ∈ ws, reWsChar c) ∧
      s = lbrace :: (core ++ [rbrace]) := by
  match l2, h with
  | c :: rest, h =>
    simp only [fenceAfterWs] at h
    by_cases hc : (c == lbrace) = true
    · rw [if_pos hc] at h
      cases hcr : closeRev rest.reverse [] with
      | none => rw [hcr] at h; cases h
      | some m =>
        rw [hcr] at h
        have hs : lbrace :: m = s := Option.some.inj h
        obtain ⟨mc, ws, t, e1, e2, e3⟩ := closeRev_spec rest.reverse [] m hcr
        rw [List.reverse_reverse, List.append_nil] at e2
        refine ⟨ws, t, mc, ?_, e3, by rw [← hs, e1]⟩
        rw [← hs, List.cons_append, ← e2, eq_of_beq hc]
    · rw [if_neg hc] at h; cases h

/-- A successful fence-tail match decomposes its input (the text after the
opening fence) as an optional tag plus leading whitespace, the span,
trailing whitespace, the closing fence, and a tail. -/
theorem fenceTail_spec (l s : List Char) (h : fenceTail l = some s) :
    ∃ mid ws t core, l = mid ++ (s ++ (ws ++ (triple ++ t))) ∧
      s = lbrace :: (core ++ [rbrace]) := by
  simp only [fenceTail] at h
  by_cases hj : jsonTag.isPrefixOf l = true
  · rw [if_pos hj] at h
    obtain ⟨u, hu⟩ : jsonTag <+: l := List.isPrefixOf_iff_prefix.mp hj
    have hdrop : l.drop 4 = u := by
      rw [← hu]
      have h4 : jsonTag.length = 4 := rfl
      rw [← h4]
      exact List.drop_left _ _
    rw [hdrop] at h
    obtain ⟨ws, t, core, e1, e2, e3⟩ := fenceAfterWs_spec (dropWs u) s h
    refine ⟨jsonTag ++ u.takeWhile reWsChar, ws, t, core, ?_, e3⟩
    conv_lhs => rw [← hu]
    rw [List.append_assoc]
    congr 1
    conv_lhs => rw [← List.takeWhile_append_dropWhile reWsChar u]
    rw [← dropWs_eq, e1]
  · rw [if_neg hj] at h
    obtain ⟨ws, t, core, e1, e2, e3⟩ := fenceAfterWs_spec (dropWs l) s h
    refine ⟨l.takeWhile reWsChar, ws, t, core, ?_, e3⟩
    conv_lhs => rw [← List.takeWhile_append_dropWhile reWsChar l]
    rw [← dropWs_eq, e1]

/-- A successful fenced search means the whole text contains an opening
fence, then the matched `{`-to-`}` span, then (after whitespace) a closing
fence; in particular the span sits strictly between two distinct fence
markers. -/
theorem fencedSearch_spec (l s : List Char) (h : fencedSearch l = some s) :
    ∃ pre mid ws t core, l = pre ++ (triple ++ (mid ++ (s ++ (ws ++ (triple ++ t))))) ∧
      s = lbrace :: (core ++ [rbrace]) := by
  induction l with
  | nil => simp [fencedSearch] at h
  | cons c rest ih =>
    simp only [fencedSearch] at h
    by_cases hp : triple.isPrefixOf (c :: rest) = true
    · rw [if_pos hp] at h
      cases hft : fenceTail ((c :: rest).drop 3) with
      | some s2 =>
        rw [hft] at h
        have hs : s2 = s := Option.some.inj h
        obtain ⟨u, hu⟩ : triple <+: c :: rest := List.isPrefixOf_iff_prefix.mp hp
        have hdrop : (c :: rest).drop 3 = u := by
          rw [← hu]
          have h3 : triple.length = 3 := rfl
          rw [← h3]
          exact List.drop_left _ _
        rw [hdrop, hs] at hft
        obtain ⟨mid, ws, t, core, e1, e2⟩ := fenceTail_spec u s hft
        refine ⟨[], mid, ws, t, core, ?_, e2⟩
        rw [List.nil_append, ← hu, e1]
      | none =>
        rw [hft] at h
        obtain ⟨pre, mid, ws, t, core, e1, e2⟩ := ih h
        exact ⟨c :: pre, mid, ws, t, core, by rw [List.cons_append, ← e1], e2⟩
    · rw [if_neg hp] at h
      obtain ⟨pre, mid, ws, t, core, e1, e2⟩ := ih h
      exact ⟨c :: pre, mid, ws, t, core, by rw [List.cons_append, ← e1], e2⟩

/-- The print loop succeeds and prints one line per item when every item
formats (all items are dicts with the three keys). -/
theorem printLoop_length (items : List JValue) (h : ∀ it ∈ items, (printItem it).isSome = true) :
    ∃ ls, printLoop items = some ls ∧ ls.length = items.length := by
  induction items with
  | nil => exact ⟨[], rfl, rfl⟩
  | cons it rest ih =>
    obtain ⟨line, hline⟩ := Option.isSome_iff_exists.mp (h it (List.mem_cons_self it rest))
    obtain ⟨ls, hl1, hl2⟩ := ih (fun x hx => h x (List.mem_cons_of_mem it hx))
    exact ⟨line :: ls, by simp [printLoop, hline, hl1], by simp [hl2]⟩

/- ---------- Claim theorems ---------- -/

/-- C7: for the single-quoted input
`"{'results': [{'code': 'A', 'name': 'X', 'explanation': 'y'}]}"` the
extracted brace span is the whole text, strict decoding of it fails, the
quote-repair stage rewrites the single-quoted tokens to double-quoted
tokens, the retried decode succeeds, and the parsed reply has exactly one
item whose code is `A`. -/
theorem C7_quote_repair_example :
    fencedSearch rawC7.data = none ∧
    json_str_of rawC7 = some rawC7.data ∧
    json_loads rawC7.data = none ∧
    fix_quotes rawC7.data = fixedC7.data ∧
    json_loads fixedC7.data = some vC7 ∧
    parse_response rawC7 = some vC7 ∧
    resultCodes (some vC7) = some ["A"] :=
  ⟨rfl, rfl, rfl, rfl, rfl, rfl, rfl⟩

/-- C10: the quote-repair stage rewrites every shortest single-quote
delimited span, even inside a strict double-quoted JSON string, so repair
can succeed while corrupting content: on `rawC10` strict decode fails (the
key is single-quoted), the global rewrite turns the two apostrophes inside
the first string element into delimiters, the repaired decode succeeds, and
the decoded `results` strings `["X", "Y", "Z"]` differ from those of the
content-faithful repair `["X', 'Y", "Z"]` — repair success does not
guarantee content fidelity. -/
theorem C10_repair_infidelity :
    json_loads rawC10.data = none ∧
    fix_quotes rawC10.data = fixedC10.data ∧
    json_loads fixedC10.data = some vC10bad ∧
    parse_response rawC10 = some vC10bad ∧
    resultsStrings vC10bad = some ["X", "Y", "Z"] ∧
    json_loads faithfulC10.data = some vC10good ∧
    resultsStrings vC10good = some ["X\x27, \x27Y", "Z"] ∧
    ¬ resultsStrings vC10bad = resultsStrings vC10good :=
  ⟨rfl, rfl, rfl, rfl, rfl, rfl, rfl, by decide⟩

/-- C1 counterexample: on the raw reply `"{\"foo\": []}"` the brace span is
syntactically valid JSON **without** a `results` key, yet the parser returns
it as a success instead of the failure value the claim requires ("returns on
the first stage that yields syntactically valid JSON containing a `results`
key"). -/
theorem C1_counterexample :
    parse_response "\x7b\"foo\": []\x7d" = some (JValue.jobj [("foo", JValue.jarr [])]) ∧
    hasResultsKey (JValue.jobj [("foo", JValue.jarr [])]) = false :=
  ⟨rfl, rfl⟩

/-- C1 amended: the parser applies the recovery stages in the fixed order —
fenced extraction, else brace-span extraction, then strict decode of the one
extracted span, then a single quote-repair retry — and returns the first
successful decode regardless of whether it contains a `results` key (that
check lives in the caller); if no span is extracted it fails, and if strict
decode fails the result is exactly the quote-repaired decode (so exhaustion
yields the failure value `none`, which carries no payload). -/
theorem C1_stage_order :
    (∀ raw s, fencedSearch raw.data = some s → json_str_of raw = some s) ∧
    (∀ raw, fencedSearch raw.data = none → json_str_of raw = braceSearch raw.data) ∧
    (∀ raw, json_str_of raw = none → parse_response raw = none) ∧
    (∀ raw s v, json_str_of raw = some s → json_loads s = some v → parse_response raw = some v) ∧
    (∀ raw s, json_str_of raw = some s → json_loads s = none →
      parse_response raw = json_loads (fix_quotes s)) := by
  refine ⟨?_, ?_, ?_, ?_, ?_⟩
  · intro raw s h
    simp [json_str_of, h]
  · intro raw h
    simp [json_str_of, h]
  · intro raw h
    simp [parse_response, h]
  · intro raw s v h1 h2
    cases s with
    | nil => rw [show json_loads ([] : List Char) = none from rfl] at h2; cases h2
    | cons c cs => simp [parse_response, h1, h2]
  · intro raw s h1 h2
    cases s with
    | nil =>
      simp only [parse_response, h1, List.isEmpty_nil, if_pos]
      rw [show fix_quotes ([] : List Char) = [] from rfl]
      exact h2.symm
    | cons c cs =>
      simp only [parse_response, h1, List.isEmpty_cons, if_neg, h2, Bool.false_eq_true,
        not_false_eq_true]
      cases json_loads (fix_quotes (c :: cs)) <;> rfl

/-- C1 witness: the five stage-order facts instantiated on concrete
replies. -/
theorem C1_stage_order_witness :
    json_str_of "```\x7b\x7d```" = some [lbrace, rbrace] ∧
    json_str_of "no json here at all" = braceSearch "no json here at all".data ∧
    parse_response "no json here at all" = none ∧
    parse_response "Sure! \x7b\"results\": []\x7d Thanks." =
      some (JValue.jobj [("results", JValue.jarr [])]) ∧
    parse_response "\x7ba\x7d" = json_loads (fix_quotes ("\x7ba\x7d".data)) :=
  ⟨C1_stage_order.1 "```\x7b\x7d```" [lbrace, rbrace] rfl,
   C1_stage_order.2.1 "no json here at all" rfl,
   C1_stage_order.2.2.1 "no json here at all" rfl,
   C1_stage_order.2.2.2.1 "Sure! \x7b\"results\": []\x7d Thanks."
     ("\x7b\"results\": []\x7d".data) (JValue.jobj [("results", JValue.jarr [])]) rfl rfl,
   C1_stage_order.2.2.2.2 "\x7ba\x7d" ("\x7ba\x7d".data) rfl rfl⟩

/-- C2 counterexample: with `top_k = 0` and `top_k = -5` the retrieval
function performs its one collaborator call anyway — the call log is not
empty, contradicting "fails with InvalidArgument before any network call
… collaborator call count is zero". -/
theorem C2_counterexample :
    (get_candidates (fun _ _ => []) "q" 0).1.length = 1 ∧
    (get_candidates (fun _ _ => []) "q" (-5)).1.length = 1 ∧
    ¬ (get_candidates (fun _ _ => []) "q" 0).1.length = 0 ∧
    ¬ (get_candidates (fun _ _ => []) "q" (-5)).1.length = 0 :=
  ⟨rfl, rfl, by decide, by decide⟩

/-- C2 amended: `get_candidates` performs no validation of `top_k` at all:
for every query and every `top_k` (including values ≤ 0) it issues exactly
one query job to the index, with `top_k` interpolated verbatim into the SQL
text. -/
theorem C2_no_topk_validation (index : String → String → List Candidate) (q : String)
    (k : Int) :
    (get_candidates index q k).1 = [(query_sql k, q)] ∧
    ∃ pre suf, (query_sql k).data = pre ++ ((toString k).data ++ suf) := by
  refine ⟨rfl, sqlBefore.data, sqlAfter.data, ?_⟩
  simp [query_sql, String.data_append, List.append_assoc]

/-- C3 counterexample: when the index returns an empty candidate list, the
script still sends one prompt to the reasoning model — the generate-call log
has length 1, contradicting "never invokes ReasoningModel.generate". -/
theorem C3_counterexample :
    (run_pipeline (fun _ _ => []) (fun _ => "x") "q").candidates = [] ∧
    (run_pipeline (fun _ _ => []) (fun _ => "x") "q").genLog.length = 1 ∧
    ¬ (run_pipeline (fun _ _ => []) (fun _ => "x") "q").genLog = [] :=
  ⟨rfl, rfl, by simp [run_pipeline, rerank_and_filter, get_candidates]⟩

/-- C3 amended: there is no empty-recall short circuit: even when candidate
retrieval yields an empty CandidateSet, the pipeline invokes the reasoning
model exactly once (the final output then depends on the model's reply
rather than being unconditionally an empty result). -/
theorem C3_generate_called_on_empty (generate : String → String) (q : String) :
    (run_pipeline (fun _ _ => []) generate q).candidates = [] ∧
    (run_pipeline (fun _ _ => []) generate q).genLog.length = 1 :=
  ⟨rfl, rfl⟩

set_option maxRecDepth 4000 in
/-- C4 counterexample: when the model reply decodes to six items, the run
prints six result lines — more than the claimed bound of 5. -/
theorem C4_counterexample :
    Option.map List.length (run_pipeline (fun _ _ => [candA]) (fun _ => raw6) "q").output =
      some 6 ∧
    ¬ (6 : Nat) ≤ 5 :=
  ⟨rfl, by decide⟩

/-- C4 amended: no truncation to 5 items exists anywhere on the success
path: whenever the guard passes, the decoded `results` value is a list, and
every item formats, the run prints exactly one line per decoded item — the
output length equals the decoded list length, however large. -/
theorem C4_no_truncation (v : JValue) (items : List JValue)
    (h1 : mainCond (some v) = some true)
    (h2 : getItem v "results" = some (JValue.jarr items))
    (h3 : ∀ it ∈ items, (printItem it).isSome = true) :
    ∃ ls, main_print (some v) = some ls ∧ ls.length = items.length := by
  simp only [main_print, h1, h2, pyForPrint]
  exact printLoop_length items h3

/-- C4 witness: the no-truncation theorem applied to a one-item reply. -/
theorem C4_no_truncation_witness :
    ∃ ls, main_print (some (JValue.jobj [("results", JValue.jarr [itemW])])) = some ls ∧
      ls.length = 1 :=
  C4_no_truncation (JValue.jobj [("results", JValue.jarr [itemW])]) [itemW] rfl rfl
    (by intro it h; rw [List.mem_singleton] at h; rw [h]; rfl)

/-- C5 counterexample: the candidate set has the single code `A`, the model
replies with the unknown code `Z`, and the run returns and prints the `Z`
item anyway — no Validating step drops it. -/
theorem C5_counterexample :
    (run_pipeline (fun _ _ => [candA]) (fun _ => rawZ) "q").candidates.map Candidate.code =
      ["A"] ∧
    resultCodes (run_pipeline (fun _ _ => [candA]) (fun _ => rawZ) "q").finalResults =
      some ["Z"] ∧
    (run_pipeline (fun _ _ => [candA]) (fun _ => rawZ) "q").output =
      some ["Code: Z | Name: X | Reason: y"] ∧
    ¬ "Z" ∈ ["A"] :=
  ⟨rfl, rfl, rfl, by decide⟩

/-- C5 amended: the pipeline performs no code validation: a decoded item is
returned and printed wholly independently of the candidate set supplied to
the request — for every candidate list (whether or not it contains the
reply's code `Z`) the same `Z` result comes back. -/
theorem C5_no_code_validation (cands : List Candidate) (q : String) :
    (run_pipeline (fun _ _ => cands) (fun _ => rawZ) q).candidates = cands ∧
    resultCodes (run_pipeline (fun _ _ => cands) (fun _ => rawZ) q).finalResults =
      some ["Z"] ∧
    (run_pipeline (fun _ _ => cands) (fun _ => rawZ) q).output =
      some ["Code: Z | Name: X | Reason: y"] :=
  ⟨rfl, rfl, rfl⟩

/-- C6 counterexample: on an unparseable reply the parser yields the failure
value, yet the run terminates normally printing nothing (`some []`) — there
is no Failed state and no typed RerankUnavailable error anywhere in the
observable trace. -/
theorem C6_counterexample :
    (run_pipeline (fun _ _ => [candA]) (fun _ => "no json here at all") "q").finalResults =
      none ∧
    (run_pipeline (fun _ _ => [candA]) (fun _ => "no json here at all") "q").output =
      some [] :=
  ⟨rfl, rfl⟩

/-- C6 amended: whenever the parser fails (returns `None`), the script's
guard is falsy, so the run prints no lines and terminates normally — parse
failure is silently indistinguishable from an empty success, rather than a
typed `Failed`/RerankUnavailable outcome. -/
theorem C6_silent_none (index : String → String → List Candidate)
    (generate : String → String) (q : String)
    (h : (run_pipeline index generate q).finalResults = none) :
    (run_pipeline index generate q).output = some [] := by
  have e : (run_pipeline index generate q).output =
      main_print ((run_pipeline index generate q).finalResults) := rfl
  rw [e, h]
  rfl

/-- C6 witness: the silent-failure theorem applied to a concrete
unparseable reply. -/
theorem C6_silent_none_witness :
    (run_pipeline (fun _ _ => []) (fun _ => "no json here at all") "q").output = some [] :=
  C6_silent_none (fun _ _ => []) (fun _ => "no json here at all") "q" rfl

/-- C8: prompt building is deterministic — rendering the prompt twice from
identical `(query, candidates)` inputs yields byte-identical output (the
rendering is a pure function of exactly those two inputs; no randomness or
current time is consulted) — and both the raw query and the full
`json.dumps` of the candidate list (code, name, summary) are embedded
verbatim as contiguous substrings of the prompt. -/
theorem C8_prompt_deterministic (q : String) (cands : List Candidate) :
    system_prompt q cands = system_prompt q cands ∧
    (∃ pre suf, (system_prompt q cands).data = pre ++ ((dumpsCandidates cands).data ++ suf)) ∧
    (∃ pre suf, (system_prompt q cands).data = pre ++ (q.data ++ suf)) := by
  refine ⟨rfl, ⟨(promptPartA ++ q ++ promptPartB).data, promptPartC.data, ?_⟩,
    ⟨promptPartA.data, (promptPartB ++ dumpsCandidates cands ++ promptPartC).data, ?_⟩⟩
  · simp [system_prompt, String.data_append, List.append_assoc]
  · simp [system_prompt, String.data_append, List.append_assoc]

/-- C9: the fenced stage matches only when a closing fence exists and a
`{`-to-`}` span sits between the two fence markers (first conjunct: every
successful fenced extraction decomposes the raw text as prefix, opening
fence, tag/whitespace, the extracted `{…}` span, whitespace, closing fence,
tail); when the fenced regex finds no match anywhere, the parser falls back
to brace-span extraction over the **entire** raw text, fence markers
included (second conjunct); concretely, an opened-but-unclosed fence falls
through and its payload is recovered from the whole-text brace span (third
and fourth conjuncts), and a closed fence containing no braces falls
through with the span coming from prose outside the fence, not from the
fence interior (remaining conjuncts). -/
theorem C9_fence_fallthrough :
    (∀ (raw : String) (s : List Char), fencedSearch raw.data = some s →
      ∃ pre mid ws t core,
        raw.data = pre ++ (triple ++ (mid ++ (s ++ (ws ++ (triple ++ t))))) ∧
        s = lbrace :: (core ++ [rbrace])) ∧
    (∀ raw, fencedSearch raw.data = none → json_str_of raw = braceSearch raw.data) ∧
    fencedSearch rawUnclosed.data = none ∧
    parse_response rawUnclosed = some (JValue.jobj [("results", JValue.jarr [])]) ∧
    fencedSearch rawNoBrace.data = none ∧
    json_str_of rawNoBrace = some ("\x7b\"a\": []\x7d".data) ∧
    parse_response rawNoBrace = some (JValue.jobj [("a", JValue.jarr [])]) := by
  refine ⟨?_, ?_, rfl, rfl, rfl, rfl, rfl⟩
  · intro raw s h
    exact fencedSearch_spec raw.data s h
  · intro raw h
    simp [json_str_of, h]

/-- C9 witness: the decomposition fact instantiated on a minimal fenced
reply, and the fallthrough fact instantiated on a fence-free reply. -/
theorem C9_fence_fallthrough_witness :
    (∃ pre mid ws t core,
      "```\x7b\x7d```".data = pre ++ (triple ++ (mid ++ (([lbrace, rbrace] : List Char) ++
        (ws ++ (triple ++ t))))) ∧
      ([lbrace, rbrace] : List Char) = lbrace :: (core ++ [rbrace])) ∧
    json_str_of "no json here at all" = braceSearch "no json here at all".data :=
  ⟨C9_fence_fallthrough.1 "```\x7b\x7d```" [lbrace, rbrace] rfl,
   C9_fence_fallthrough.2.1 "no json here at all" rfl⟩

end ProductSearch
